import Mathlib

/-!
Shallow embedding of the go-restclient package (files restclient.go and its
test): a single-host HTTP client with JSON-by-default request and response
handling, a raw-stream mode, and a pluggable custom-error hook.

Modelling conventions:
* Go `error` values are `Option Err` (`none` is Go `nil`).
* The network and the standard library are an explicit environment `NetEnv`
  giving the outcome of `http.NewRequest` and of `(&http.Client{}).Do`.
* A response body (`io.ReadCloser`) is identified by a `Nat` id; the results
  record which body ids were closed during the call, whether the wire request
  was actually executed, and whether the Go code would panic.
* A `Do`/`DoStream` payload is either a value satisfying `io.Reader` or any
  other value, the latter represented by the outcome `json.Marshal` has on it.
* A decode target (`into interface{}`) is `none` for the Go `nil` interface, or
  `some decode` where `decode b` is the outcome of `json.Decode` reading body
  `b` into that target (`none` = success, `some e` = decode error).
-/

namespace Restclient

/-- Models Go strings.HasPrefix on the character-sequence view of a string. -/
def goStartsWith (s pre : String) : Bool :=
  pre.data.isPrefixOf s.data

/-- Models Go strconv.Itoa. -/
def Itoa (i : Int) : String :=
  toString i

/-- Constant httpPortDefault = 80. -/
def httpPortDefault : Int := 80

/-- Constant httpsPortDefault = 443. -/
def httpsPortDefault : Int := 443

/-- An abstract Go error value (the non-nil case of the error interface). -/
structure Err where
  msg : String

/-- An io.Reader used as a request body: either an io.Reader supplied by the
caller, or the bytes.Buffer built from a JSON-marshalled payload. -/
inductive Reader where
  | stream (id : Nat)
  | buffer (contents : String)

/-- The part of an http.Request the client code touches: it is built by
http.NewRequest from the method, the assembled URL and the body reader. -/
structure HttpRequest where
  method : String
  url : String
  body : Reader

/-- The part of an http.Response the client code touches: the status code and
the identity of the body stream. -/
structure HttpResponse where
  statusCode : Int
  bodyId : Nat

/-- The httpClient struct: host, port, useHTTPS, and the custom-error pair.
The constructor field is an Option because the Go field is a nilable func. -/
structure HttpClient where
  host : String
  port : Int
  useHTTPS : Bool
  customErrorStatusCodes : List Int
  customErrorConstructor : Option (HttpRequest → HttpResponse → Option Err)

/-- Models New: a client with the given target and both custom-error fields
nil. -/
def New (host : String) (port : Int) (useHTTPS : Bool) : HttpClient :=
  ⟨host, port, useHTTPS, [], none⟩

/-- Models the method fullPath: scheme from useHTTPS, port segment omitted when
the port is the scheme default, leading slash added when missing. -/
def HttpClient.fullPath (client : HttpClient) (path : String) : String :=
  let proto := if client.useHTTPS then "https" else "http"
  let defaultPort := if client.useHTTPS then httpsPortDefault else httpPortDefault
  let port := if client.port ≠ defaultPort then ":" ++ Itoa client.port else ""
  let pathSlash := if !(goStartsWith path "/") then "/" ++ path else path
  proto ++ "://" ++ client.host ++ port ++ pathSlash

/-- Models the method hasCustomError: linear scan of customErrorStatusCodes for
the given status code. -/
def HttpClient.hasCustomError (client : HttpClient) (statusCode : Int) : Bool :=
  client.customErrorStatusCodes.any fun c => c == statusCode

/-- Models the method SetErrorConstructor: overwrites both fields of the
custom-error pair, leaving the rest of the struct untouched. -/
def HttpClient.SetErrorConstructor (client : HttpClient) (statusCodes : List Int)
    (fn : Option (HttpRequest → HttpResponse → Option Err)) : HttpClient :=
  { client with customErrorStatusCodes := statusCodes, customErrorConstructor := fn }

/-- The environment a call runs against: the outcome of http.NewRequest on a
method, URL and body, and the outcome of (&http.Client{}).Do on a request. -/
structure NetEnv where
  newRequest : String → String → Reader → Except Err HttpRequest
  doRequest : HttpRequest → Except Err HttpResponse

/-- What the method customErrorResponse produces: the returned error, the body
ids it closed, and whether it panicked. -/
structure CustomErrorResult where
  error : Option Err
  closedBodies : List Nat
  panicked : Bool

/-- Models the method customErrorResponse: defer resp.Body.Close(), then call
the stored customErrorConstructor with the request and the response. The
deferred Close runs in every case, so the body is always closed on this path;
calling a nil func value in Go panics, recorded by the panicked flag. -/
def HttpClient.customErrorResponse (client : HttpClient) (req : HttpRequest)
    (resp : HttpResponse) : CustomErrorResult :=
  match client.customErrorConstructor with
  | some f => ⟨f req resp, [resp.bodyId], false⟩
  | none => ⟨none, [resp.bodyId], true⟩

/-- The observable outcome of requestRaw: its three Go return values (status,
body, error) plus the instrumentation fields sentRequest (was the wire request
executed), closedBodies (body ids closed during the call) and panicked. -/
structure RawResult where
  status : Int
  body : Option Nat
  error : Option Err
  sentRequest : Bool
  closedBodies : List Nat
  panicked : Bool

/-- Models the method requestRaw: assemble the URL with fullPath, build the
request with http.NewRequest (failure returns -1, nil, err with nothing sent),
execute it (transport failure returns -1, nil, err), then either take the
custom-error path when the status code is in the configured set, or hand the
status and the live unclosed body to the caller. -/
def HttpClient.requestRaw (client : HttpClient) (env : NetEnv)
    (method path : String) (payload : Reader) : RawResult :=
  let fp := client.fullPath path
  match env.newRequest method fp payload with
  | .error err => ⟨-1, none, some err, false, [], false⟩
  | .ok req =>
    match env.doRequest req with
    | .error err => ⟨-1, none, some err, true, [], false⟩
    | .ok resp =>
      if client.hasCustomError resp.statusCode then
        let ce := client.customErrorResponse req resp
        ⟨resp.statusCode, none, ce.error, true, ce.closedBodies, ce.panicked⟩
      else
        ⟨resp.statusCode, some resp.bodyId, none, true, [], false⟩

/-- A payload argument: either a value satisfying io.Reader, or any other
value, represented by the outcome json.Marshal has on it (the marshalled JSON
text, or the marshalling error). -/
inductive Payload where
  | reader (id : Nat)
  | value (marshal : Except Err String)

/-- The io.Reader a payload turns into when it clears the dispatch in the
method request: a caller io.Reader is passed as-is, a marshallable value
becomes a bytes.Buffer of its JSON, a non-marshallable value has none. -/
def Payload.toReader : Payload → Option Reader
  | .reader id => some (.stream id)
  | .value (.error _) => none
  | .value (.ok enc) => some (.buffer enc)

/-- Models the method request: a payload that satisfies io.Reader is streamed
as-is; otherwise it is JSON-marshalled, and a marshalling error aborts the call
with status -1 before any request is built or sent. -/
def HttpClient.request (client : HttpClient) (env : NetEnv)
    (method path : String) (payload : Payload) : RawResult :=
  match payload with
  | .reader id => client.requestRaw env method path (.stream id)
  | .value (.error err) => ⟨-1, none, some err, false, [], false⟩
  | .value (.ok enc) => client.requestRaw env method path (.buffer enc)

/-- Models the free function handleJSONResponse: a nil into returns nil
immediately without reading the body; otherwise the body is JSON-decoded into
the target and the decode outcome returned. -/
def handleJSONResponse (body : Nat) (into : Option (Nat → Option Err)) : Option Err :=
  match into with
  | none => none
  | some decode => decode body

/-- The observable outcome of requestJSON and Do: the two Go return values
(status, error) plus the same instrumentation fields as RawResult. -/
structure DoResult where
  status : Int
  error : Option Err
  sentRequest : Bool
  closedBodies : List Nat
  panicked : Bool

/-- Models the method requestJSON: run request; on error return its status and
error as-is; otherwise defer body.Close() (a nil body makes Go panic) and
return the status together with the handleJSONResponse outcome. -/
def HttpClient.requestJSON (client : HttpClient) (env : NetEnv)
    (method path : String) (payload : Payload)
    (into : Option (Nat → Option Err)) : DoResult :=
  let r := client.request env method path payload
  match r.error with
  | some err => ⟨r.status, some err, r.sentRequest, r.closedBodies, r.panicked⟩
  | none =>
    match r.body with
    | some b =>
      ⟨r.status, handleJSONResponse b into, r.sentRequest, r.closedBodies ++ [b], r.panicked⟩
    | none => ⟨r.status, none, r.sentRequest, r.closedBodies, true⟩

/-- Models the method Do: requestJSON. -/
def HttpClient.Do (client : HttpClient) (env : NetEnv) (method path : String)
    (payload : Payload) (into : Option (Nat → Option Err)) : DoResult :=
  client.requestJSON env method path payload into

/-- Models the method DoStream: request, the body handed to the caller. -/
def HttpClient.DoStream (client : HttpClient) (env : NetEnv) (method path : String)
    (payload : Payload) : RawResult :=
  client.request env method path payload

/-- The URL formula exactly as the specification words it: scheme from the TLS
flag, port segment omitted when the port is the conventional default of the
scheme, leading slash prepended when missing. Stated separately from fullPath
so the two can be compared. -/
def fullPathSpec (client : HttpClient) (path : String) : String :=
  let scheme := if client.useHTTPS then "https" else "http"
  let portSeg :=
    if client.port = (if client.useHTTPS then httpsPortDefault else httpPortDefault) then ""
    else ":" ++ Itoa client.port
  let pathSlash := if goStartsWith path "/" then path else "/" ++ path
  scheme ++ "://" ++ client.host ++ portSeg ++ pathSlash

/-- A network environment whose request construction succeeds verbatim and
whose transport always answers with status 400 and body stream 7. -/
def env400 : NetEnv :=
  ⟨fun m u r => .ok ⟨m, u, r⟩, fun _ => .ok ⟨400, 7⟩⟩

/-- A network environment whose request construction succeeds verbatim and
whose transport always answers with status 500 and body stream 9. -/
def env500 : NetEnv :=
  ⟨fun m u r => .ok ⟨m, u, r⟩, fun _ => .ok ⟨500, 9⟩⟩

/-- A network environment whose transport always fails. -/
def envDown : NetEnv :=
  ⟨fun m u r => .ok ⟨m, u, r⟩, fun _ => .error ⟨"connection refused"⟩⟩

/-- A network environment in which building the request itself fails. -/
def envBadMethod : NetEnv :=
  ⟨fun _ _ _ => .error ⟨"invalid method"⟩, fun _ => .ok ⟨200, 5⟩⟩

/-- A concrete custom error constructor. -/
def consBoom : HttpRequest → HttpResponse → Option Err :=
  fun _ _ => some ⟨"boom"⟩

/-- Another concrete custom error constructor. -/
def consNope : HttpRequest → HttpResponse → Option Err :=
  fun _ _ => some ⟨"nope"⟩

/-- A decode target on which json.Decode always fails (malformed body). -/
def decodeFail : Nat → Option Err :=
  fun _ => some ⟨"invalid JSON"⟩

/-- A plain client with no custom-error configuration. -/
def clientPlain : HttpClient := New "example.com" 80 false

/-- A client that treats status 400 as a custom error via consBoom. -/
def clientBoom : HttpClient := clientPlain.SetErrorConstructor [400] (some consBoom)

/-- The request the verbatim environments build for a GET of /x. -/
def reqGetX (client : HttpClient) (rdr : Reader) : HttpRequest :=
  ⟨"GET", client.fullPath "/x", rdr⟩

/-! ## Helper lemmas -/

/-- A payload that clears the marshalling dispatch makes request defer to
requestRaw on the resulting reader. -/
theorem request_eq_requestRaw (client : HttpClient) (env : NetEnv)
    (method path : String) (payload : Payload) (rdr : Reader)
    (hpay : payload.toReader = some rdr) :
    client.request env method path payload = client.requestRaw env method path rdr := by
  cases payload with
  | reader id =>
    simp only [Payload.toReader, Option.some.injEq] at hpay
    subst hpay
    rfl
  | value m =>
    cases m with
    | error e => simp [Payload.toReader] at hpay
    | ok enc =>
      simp only [Payload.toReader, Option.some.injEq] at hpay
      subst hpay
      rfl

/-- hasCustomError is membership in the configured status-code list. -/
theorem hasCustomError_iff (client : HttpClient) (s : Int) :
    client.hasCustomError s = true ↔ s ∈ client.customErrorStatusCodes := by
  simp only [HttpClient.hasCustomError, List.any_eq_true, beq_iff_eq]
  constructor
  · rintro ⟨x, hx, rfl⟩
    exact hx
  · intro hs
    exact ⟨s, hs, rfl⟩

/-- Outcome of requestRaw when the response status is in the custom-error set
and a constructor is configured. -/
theorem requestRaw_success_custom (client : HttpClient) (env : NetEnv)
    (method path : String) (rdr : Reader) (req : HttpRequest) (resp : HttpResponse)
    (f : HttpRequest → HttpResponse → Option Err)
    (hreq : env.newRequest method (client.fullPath path) rdr = .ok req)
    (hresp : env.doRequest req = .ok resp)
    (hcust : client.hasCustomError resp.statusCode = true)
    (hcons : client.customErrorConstructor = some f) :
    client.requestRaw env method path rdr =
      ⟨resp.statusCode, none, f req resp, true, [resp.bodyId], false⟩ := by
  simp [HttpClient.requestRaw, hreq, hresp, hcust, HttpClient.customErrorResponse, hcons]

/-- Outcome of requestRaw when the response status is not in the
custom-error set. -/
theorem requestRaw_success_plain (client : HttpClient) (env : NetEnv)
    (method path : String) (rdr : Reader) (req : HttpRequest) (resp : HttpResponse)
    (hreq : env.newRequest method (client.fullPath path) rdr = .ok req)
    (hresp : env.doRequest req = .ok resp)
    (hcust : client.hasCustomError resp.statusCode = false) :
    client.requestRaw env method path rdr =
      ⟨resp.statusCode, some resp.bodyId, none, true, [], false⟩ := by
  simp [HttpClient.requestRaw, hreq, hresp, hcust]

/-! ## Claim theorems -/

/-- C4: For every client with host h, port n, TLS flag t and every path p,
fullPath p equals scheme ++ "://" ++ h ++ portSeg ++ pSlash, where scheme is
https when t and http otherwise, portSeg is empty exactly when n is the
conventional default of the scheme (80 for HTTP, 443 for HTTPS) and ":" ++ n
otherwise, and pSlash is p with a leading slash prepended when missing. -/
theorem fullPath_matches_spec (client : HttpClient) (path : String) :
    client.fullPath path = fullPathSpec client path := by
  unfold HttpClient.fullPath fullPathSpec
  cases hb : client.useHTTPS <;>
    cases hp : goStartsWith path "/" <;>
      simp [hb, hp, ne_eq, ite_not]

/-- Appending any string to a slash yields a string with a slash prefix. -/
theorem goStartsWith_slash_append (x : String) : goStartsWith ("/" ++ x) "/" = true := by
  simp [goStartsWith, String.data_append, List.isPrefixOf]

/-- C5: For every client and every path x without a leading slash, fullPath
agrees on the slashless and the slashed spelling of the path. -/
theorem fullPath_slash_normalization (client : HttpClient) (x : String)
    (h : goStartsWith x "/" = false) :
    client.fullPath x = client.fullPath ("/" ++ x) := by
  unfold HttpClient.fullPath
  rw [h, goStartsWith_slash_append]
  simp

theorem fullPath_slash_normalization_witness :
    goStartsWith "abc" "/" = false ∧
    clientPlain.fullPath "abc" = clientPlain.fullPath ("/" ++ "abc") :=
  ⟨by decide, fullPath_slash_normalization clientPlain "abc" (by decide)⟩

/-- C3: A payload that is not an io.Reader and whose JSON serialization fails
makes both Do and DoStream return the sentinel status -1 together with the
serialization error, and no HTTP request is sent. -/
theorem marshal_failure_aborts (client : HttpClient) (env : NetEnv)
    (method path : String) (e : Err) (into : Option (Nat → Option Err)) :
    (client.DoStream env method path (.value (.error e))).status = -1 ∧
    (client.DoStream env method path (.value (.error e))).error = some e ∧
    (client.DoStream env method path (.value (.error e))).sentRequest = false ∧
    (client.Do env method path (.value (.error e)) into).status = -1 ∧
    (client.Do env method path (.value (.error e)) into).error = some e ∧
    (client.Do env method path (.value (.error e)) into).sentRequest = false := by
  simp [HttpClient.Do, HttpClient.DoStream, HttpClient.request, HttpClient.requestJSON]

/-- C9: When building the HTTP request from the method and assembled URL fails,
both Do and DoStream return the sentinel status -1 and that construction error
with a nil stream, and the wire request is never executed. -/
theorem newRequest_failure_sentinel (client : HttpClient) (env : NetEnv)
    (method path : String) (payload : Payload) (rdr : Reader)
    (into : Option (Nat → Option Err)) (e : Err)
    (hpay : payload.toReader = some rdr)
    (hreq : env.newRequest method (client.fullPath path) rdr = .error e) :
    (client.DoStream env method path payload).status = -1 ∧
    (client.DoStream env method path payload).body = none ∧
    (client.DoStream env method path payload).error = some e ∧
    (client.DoStream env method path payload).sentRequest = false ∧
    (client.Do env method path payload into).status = -1 ∧
    (client.Do env method path payload into).error = some e ∧
    (client.Do env method path payload into).sentRequest = false := by
  have hr := request_eq_requestRaw client env method path payload rdr hpay
  simp [HttpClient.Do, HttpClient.DoStream, HttpClient.requestJSON, hr,
    HttpClient.requestRaw, hreq]

theorem newRequest_failure_sentinel_witness :
    (Payload.reader 3).toReader = some (.stream 3) ∧
    envBadMethod.newRequest "GET" (clientPlain.fullPath "/x") (.stream 3) =
      .error ⟨"invalid method"⟩ ∧
    ((clientPlain.DoStream envBadMethod "GET" "/x" (.reader 3)).status = -1 ∧
      (clientPlain.DoStream envBadMethod "GET" "/x" (.reader 3)).body = none ∧
      (clientPlain.DoStream envBadMethod "GET" "/x" (.reader 3)).error = some ⟨"invalid method"⟩ ∧
      (clientPlain.DoStream envBadMethod "GET" "/x" (.reader 3)).sentRequest = false ∧
      (clientPlain.Do envBadMethod "GET" "/x" (.reader 3) none).status = -1 ∧
      (clientPlain.Do envBadMethod "GET" "/x" (.reader 3) none).error = some ⟨"invalid method"⟩ ∧
      (clientPlain.Do envBadMethod "GET" "/x" (.reader 3) none).sentRequest = false) :=
  ⟨rfl, rfl,
    newRequest_failure_sentinel clientPlain envBadMethod "GET" "/x" (.reader 3) (.stream 3)
      none ⟨"invalid method"⟩ rfl rfl⟩

/-- C8: When the transport fails to deliver a response, both Do and DoStream
return the sentinel status -1 and the transport error, with a nil stream and
no response body ever closed. -/
theorem transport_failure_sentinel (client : HttpClient) (env : NetEnv)
    (method path : String) (payload : Payload) (rdr : Reader)
    (into : Option (Nat → Option Err)) (req : HttpRequest) (e : Err)
    (hpay : payload.toReader = some rdr)
    (hreq : env.newRequest method (client.fullPath path) rdr = .ok req)
    (hresp : env.doRequest req = .error e) :
    (client.DoStream env method path payload).status = -1 ∧
    (client.DoStream env method path payload).body = none ∧
    (client.DoStream env method path payload).error = some e ∧
    (client.DoStream env method path payload).closedBodies = [] ∧
    (client.Do env method path payload into).status = -1 ∧
    (client.Do env method path payload into).error = some e ∧
    (client.Do env method path payload into).closedBodies = [] := by
  have hr := request_eq_requestRaw client env method path payload rdr hpay
  simp [HttpClient.Do, HttpClient.DoStream, HttpClient.requestJSON, hr,
    HttpClient.requestRaw, hreq, hresp]

theorem transport_failure_sentinel_witness :
    (Payload.reader 3).toReader = some (.stream 3) ∧
    envDown.newRequest "GET" (clientPlain.fullPath "/x") (.stream 3) =
      .ok (reqGetX clientPlain (.stream 3)) ∧
    envDown.doRequest (reqGetX clientPlain (.stream 3)) = .error ⟨"connection refused"⟩ ∧
    ((clientPlain.DoStream envDown "GET" "/x" (.reader 3)).status = -1 ∧
      (clientPlain.DoStream envDown "GET" "/x" (.reader 3)).body = none ∧
      (clientPlain.DoStream envDown "GET" "/x" (.reader 3)).error = some ⟨"connection refused"⟩ ∧
      (clientPlain.DoStream envDown "GET" "/x" (.reader 3)).closedBodies = [] ∧
      (clientPlain.Do envDown "GET" "/x" (.reader 3) none).status = -1 ∧
      (clientPlain.Do envDown "GET" "/x" (.reader 3) none).error = some ⟨"connection refused"⟩ ∧
      (clientPlain.Do envDown "GET" "/x" (.reader 3) none).closedBodies = []) :=
  ⟨rfl, rfl, rfl,
    transport_failure_sentinel clientPlain envDown "GET" "/x" (.reader 3) (.stream 3) none
      (reqGetX clientPlain (.stream 3)) ⟨"connection refused"⟩ rfl rfl rfl⟩

/-- C1: When the HTTP response arrives and its status code is in the configured
custom-error set, the configured constructor is invoked with the request and
the response, the response body is closed before the call returns regardless of
whether the constructor read it, and both Do and DoStream return the real
response status code (not the sentinel -1), a nil stream, and exactly the error
the constructor produced. -/
theorem custom_error_path_spec (client : HttpClient) (env : NetEnv)
    (method path : String) (payload : Payload) (rdr : Reader)
    (into : Option (Nat → Option Err)) (req : HttpRequest) (resp : HttpResponse)
    (f : HttpRequest → HttpResponse → Option Err) (e : Err)
    (hpay : payload.toReader = some rdr)
    (hreq : env.newRequest method (client.fullPath path) rdr = .ok req)
    (hresp : env.doRequest req = .ok resp)
    (hcust : client.hasCustomError resp.statusCode = true)
    (hcons : client.customErrorConstructor = some f)
    (hf : f req resp = some e) :
    (client.DoStream env method path payload).status = resp.statusCode ∧
    (client.DoStream env method path payload).body = none ∧
    (client.DoStream env method path payload).error = some e ∧
    (client.DoStream env method path payload).closedBodies = [resp.bodyId] ∧
    (client.Do env method path payload into).status = resp.statusCode ∧
    (client.Do env method path payload into).error = some e ∧
    (client.Do env method path payload into).closedBodies = [resp.bodyId] := by
  have hr := request_eq_requestRaw client env method path payload rdr hpay
  rw [requestRaw_success_custom client env method path rdr req resp f hreq hresp hcust hcons]
    at hr
  simp [HttpClient.Do, HttpClient.DoStream, HttpClient.requestJSON, hr, hf]

theorem custom_error_path_spec_witness :
    (Payload.reader 3).toReader = some (.stream 3) ∧
    env400.newRequest "GET" (clientBoom.fullPath "/x") (.stream 3) =
      .ok (reqGetX clientBoom (.stream 3)) ∧
    env400.doRequest (reqGetX clientBoom (.stream 3)) = .ok ⟨400, 7⟩ ∧
    clientBoom.hasCustomError 400 = true ∧
    clientBoom.customErrorConstructor = some consBoom ∧
    consBoom (reqGetX clientBoom (.stream 3)) ⟨400, 7⟩ = some ⟨"boom"⟩ ∧
    ((clientBoom.DoStream env400 "GET" "/x" (.reader 3)).status = 400 ∧
      (clientBoom.DoStream env400 "GET" "/x" (.reader 3)).body = none ∧
      (clientBoom.DoStream env400 "GET" "/x" (.reader 3)).error = some ⟨"boom"⟩ ∧
      (clientBoom.DoStream env400 "GET" "/x" (.reader 3)).closedBodies = [7] ∧
      (clientBoom.Do env400 "GET" "/x" (.reader 3) none).status = 400 ∧
      (clientBoom.Do env400 "GET" "/x" (.reader 3) none).error = some ⟨"boom"⟩ ∧
      (clientBoom.Do env400 "GET" "/x" (.reader 3) none).closedBodies = [7]) :=
  ⟨rfl, rfl, rfl, rfl, rfl, rfl,
    custom_error_path_spec clientBoom env400 "GET" "/x" (.reader 3) (.stream 3) none
      (reqGetX clientBoom (.stream 3)) ⟨400, 7⟩ consBoom ⟨"boom"⟩ rfl rfl rfl rfl rfl rfl⟩

/-- C2: When the request succeeds and no custom error fires, a nil decode
target makes Do skip JSON decoding and return a nil error whatever the
response body holds, and the response body is still closed before returning. -/
theorem nil_into_skips_decode (client : HttpClient) (env : NetEnv)
    (method path : String) (payload : Payload) (rdr : Reader)
    (req : HttpRequest) (resp : HttpResponse)
    (hpay : payload.toReader = some rdr)
    (hreq : env.newRequest method (client.fullPath path) rdr = .ok req)
    (hresp : env.doRequest req = .ok resp)
    (hcust : client.hasCustomError resp.statusCode = false) :
    (client.Do env method path payload none).status = resp.statusCode ∧
    (client.Do env method path payload none).error = none ∧
    (client.Do env method path payload none).closedBodies = [resp.bodyId] := by
  have hr := request_eq_requestRaw client env method path payload rdr hpay
  rw [requestRaw_success_plain client env method path rdr req resp hreq hresp hcust] at hr
  simp [HttpClient.Do, HttpClient.requestJSON, hr, handleJSONResponse]

theorem nil_into_skips_decode_witness :
    (Payload.value (.ok "hello")).toReader = some (.buffer "hello") ∧
    env400.newRequest "GET" (clientPlain.fullPath "/x") (.buffer "hello") =
      .ok (reqGetX clientPlain (.buffer "hello")) ∧
    env400.doRequest (reqGetX clientPlain (.buffer "hello")) = .ok ⟨400, 7⟩ ∧
    clientPlain.hasCustomError 400 = false ∧
    ((clientPlain.Do env400 "GET" "/x" (.value (.ok "hello")) none).status = 400 ∧
      (clientPlain.Do env400 "GET" "/x" (.value (.ok "hello")) none).error = none ∧
      (clientPlain.Do env400 "GET" "/x" (.value (.ok "hello")) none).closedBodies = [7]) :=
  ⟨rfl, rfl, rfl, rfl,
    nil_into_skips_decode clientPlain env400 "GET" "/x" (.value (.ok "hello"))
      (.buffer "hello") (reqGetX clientPlain (.buffer "hello")) ⟨400, 7⟩ rfl rfl rfl rfl⟩

/-- C6: A received response whose status code (4xx/5xx included) is not in the
configured custom-error set is an ordinary success: DoStream returns the real
status code, the live body stream and a nil error, and Do returns the real
status code together with whatever JSON decoding of the body into the target
produces. -/
theorem non_custom_status_ordinary_success (client : HttpClient) (env : NetEnv)
    (method path : String) (payload : Payload) (rdr : Reader)
    (into : Option (Nat → Option Err)) (req : HttpRequest) (resp : HttpResponse)
    (hpay : payload.toReader = some rdr)
    (hreq : env.newRequest method (client.fullPath path) rdr = .ok req)
    (hresp : env.doRequest req = .ok resp)
    (hcust : client.hasCustomError resp.statusCode = false) :
    (client.DoStream env method path payload).status = resp.statusCode ∧
    (client.DoStream env method path payload).body = some resp.bodyId ∧
    (client.DoStream env method path payload).error = none ∧
    (client.Do env method path payload into).status = resp.statusCode ∧
    (client.Do env method path payload into).error = handleJSONResponse resp.bodyId into := by
  have hr := request_eq_requestRaw client env method path payload rdr hpay
  rw [requestRaw_success_plain client env method path rdr req resp hreq hresp hcust] at hr
  simp [HttpClient.Do, HttpClient.DoStream, HttpClient.requestJSON, hr]

theorem non_custom_status_ordinary_success_witness :
    (Payload.reader 3).toReader = some (.stream 3) ∧
    env500.newRequest "GET" (clientBoom.fullPath "/x") (.stream 3) =
      .ok (reqGetX clientBoom (.stream 3)) ∧
    env500.doRequest (reqGetX clientBoom (.stream 3)) = .ok ⟨500, 9⟩ ∧
    clientBoom.hasCustomError 500 = false ∧
    ((clientBoom.DoStream env500 "GET" "/x" (.reader 3)).status = 500 ∧
      (clientBoom.DoStream env500 "GET" "/x" (.reader 3)).body = some 9 ∧
      (clientBoom.DoStream env500 "GET" "/x" (.reader 3)).error = none ∧
      (clientBoom.Do env500 "GET" "/x" (.reader 3) (some decodeFail)).status = 500 ∧
      (clientBoom.Do env500 "GET" "/x" (.reader 3) (some decodeFail)).error =
        handleJSONResponse 9 (some decodeFail)) :=
  ⟨rfl, rfl, rfl, rfl,
    non_custom_status_ordinary_success clientBoom env500 "GET" "/x" (.reader 3) (.stream 3)
      (some decodeFail) (reqGetX clientBoom (.stream 3)) ⟨500, 9⟩ rfl rfl rfl rfl⟩

/-- C7: After two successive SetErrorConstructor calls only the second pair is
consulted: the second set and function are the stored configuration, a status
in the first set but not the second triggers no constructor and is an ordinary
success, a status in the second set triggers the second function, and an empty
set disables custom error handling entirely. -/
theorem setErrorConstructor_wholesale_replacement (client c2 c3 : HttpClient)
    (env env2 : NetEnv) (method path : String) (payload : Payload) (rdr : Reader)
    (into : Option (Nat → Option Err)) (S1 S2 : List Int)
    (f1 f2 : HttpRequest → HttpResponse → Option Err)
    (g : Option (HttpRequest → HttpResponse → Option Err))
    (req req2 : HttpRequest) (resp resp2 : HttpResponse) (e2 : Err)
    (hc2 : c2 = (client.SetErrorConstructor S1 (some f1)).SetErrorConstructor S2 (some f2))
    (hc3 : c3 = c2.SetErrorConstructor [] g)
    (hpay : payload.toReader = some rdr)
    (hreq : env.newRequest method (client.fullPath path) rdr = .ok req)
    (hresp : env.doRequest req = .ok resp)
    (h1 : resp.statusCode ∈ S1) (h2 : resp.statusCode ∉ S2)
    (hreq2 : env2.newRequest method (client.fullPath path) rdr = .ok req2)
    (hresp2 : env2.doRequest req2 = .ok resp2)
    (h3 : resp2.statusCode ∈ S2)
    (hf2 : f2 req2 resp2 = some e2) :
    c2.customErrorStatusCodes = S2 ∧
    c2.customErrorConstructor = some f2 ∧
    (c2.DoStream env method path payload).error = none ∧
    (c2.DoStream env method path payload).body = some resp.bodyId ∧
    (c2.DoStream env2 method path payload).error = some e2 ∧
    (c2.Do env2 method path payload into).error = some e2 ∧
    (c2.Do env2 method path payload into).status = resp2.statusCode ∧
    (c3.DoStream env method path payload).error = none ∧
    (c3.DoStream env method path payload).body = some resp.bodyId := by
  subst hc2
  subst hc3
  have hcuF : ((client.SetErrorConstructor S1 (some f1)).SetErrorConstructor S2
      (some f2)).hasCustomError resp.statusCode = false := by
    cases hx : ((client.SetErrorConstructor S1 (some f1)).SetErrorConstructor S2
        (some f2)).hasCustomError resp.statusCode
    · rfl
    · exact absurd ((hasCustomError_iff _ _).mp hx) h2
  have hcuT : ((client.SetErrorConstructor S1 (some f1)).SetErrorConstructor S2
      (some f2)).hasCustomError resp2.statusCode = true :=
    (hasCustomError_iff _ _).mpr h3
  have hcu3 : (((client.SetErrorConstructor S1 (some f1)).SetErrorConstructor S2
      (some f2)).SetErrorConstructor [] g).hasCustomError resp.statusCode = false := rfl
  have hrF := request_eq_requestRaw ((client.SetErrorConstructor S1
    (some f1)).SetErrorConstructor S2 (some f2)) env method path payload rdr hpay
  rw [requestRaw_success_plain ((client.SetErrorConstructor S1
    (some f1)).SetErrorConstructor S2 (some f2)) env method path rdr req resp hreq hresp
    hcuF] at hrF
  have hrT := request_eq_requestRaw ((client.SetErrorConstructor S1
    (some f1)).SetErrorConstructor S2 (some f2)) env2 method path payload rdr hpay
  rw [requestRaw_success_custom ((client.SetErrorConstructor S1
    (some f1)).SetErrorConstructor S2 (some f2)) env2 method path rdr req2 resp2 f2 hreq2
    hresp2 hcuT rfl] at hrT
  have hr3 := request_eq_requestRaw (((client.SetErrorConstructor S1
    (some f1)).SetErrorConstructor S2 (some f2)).SetErrorConstructor [] g)
    env method path payload rdr hpay
  rw [requestRaw_success_plain (((client.SetErrorConstructor S1
    (some f1)).SetErrorConstructor S2 (some f2)).SetErrorConstructor [] g) env method path
    rdr req resp hreq hresp hcu3] at hr3
  refine ⟨rfl, rfl, ?_⟩
  simp [HttpClient.Do, HttpClient.DoStream, HttpClient.requestJSON, hrF, hrT, hr3, hf2]

theorem setErrorConstructor_wholesale_replacement_witness :
    ((clientPlain.SetErrorConstructor [400] (some consBoom)).SetErrorConstructor [500]
        (some consNope) =
      (clientPlain.SetErrorConstructor [400] (some consBoom)).SetErrorConstructor [500]
        (some consNope)) ∧
    (Payload.reader 3).toReader = some (.stream 3) ∧
    env400.newRequest "GET" (clientPlain.fullPath "/x") (.stream 3) =
      .ok (reqGetX clientPlain (.stream 3)) ∧
    env400.doRequest (reqGetX clientPlain (.stream 3)) = .ok ⟨400, 7⟩ ∧
    (400 : Int) ∈ [(400 : Int)] ∧ (400 : Int) ∉ [(500 : Int)] ∧
    env500.newRequest "GET" (clientPlain.fullPath "/x") (.stream 3) =
      .ok (reqGetX clientPlain (.stream 3)) ∧
    env500.doRequest (reqGetX clientPlain (.stream 3)) = .ok ⟨500, 9⟩ ∧
    (500 : Int) ∈ [(500 : Int)] ∧
    consNope (reqGetX clientPlain (.stream 3)) ⟨500, 9⟩ = some ⟨"nope"⟩ ∧
    (((clientPlain.SetErrorConstructor [400] (some consBoom)).SetErrorConstructor [500]
          (some consNope)).customErrorStatusCodes = [500] ∧
      ((clientPlain.SetErrorConstructor [400] (some consBoom)).SetErrorConstructor [500]
          (some consNope)).customErrorConstructor = some consNope ∧
      (((clientPlain.SetErrorConstructor [400] (some consBoom)).SetErrorConstructor [500]
          (some consNope)).DoStream env400 "GET" "/x" (.reader 3)).error = none ∧
      (((clientPlain.SetErrorConstructor [400] (some consBoom)).SetErrorConstructor [500]
          (some consNope)).DoStream env400 "GET" "/x" (.reader 3)).body = some 7 ∧
      (((clientPlain.SetErrorConstructor [400] (some consBoom)).SetErrorConstructor [500]
          (some consNope)).DoStream env500 "GET" "/x" (.reader 3)).error = some ⟨"nope"⟩ ∧
      (((clientPlain.SetErrorConstructor [400] (some consBoom)).SetErrorConstructor [500]
          (some consNope)).Do env500 "GET" "/x" (.reader 3) none).error = some ⟨"nope"⟩ ∧
      (((clientPlain.SetErrorConstructor [400] (some consBoom)).SetErrorConstructor [500]
          (some consNope)).Do env500 "GET" "/x" (.reader 3) none).status = 500 ∧
      ((((clientPlain.SetErrorConstructor [400] (some consBoom)).SetErrorConstructor [500]
          (some consNope)).SetErrorConstructor [] none).DoStream env400 "GET" "/x"
            (.reader 3)).error = none ∧
      ((((clientPlain.SetErrorConstructor [400] (some consBoom)).SetErrorConstructor [500]
          (some consNope)).SetErrorConstructor [] none).DoStream env400 "GET" "/x"
            (.reader 3)).body = some 7) :=
  ⟨rfl, rfl, rfl, rfl, by decide, by decide, rfl, rfl, by decide, rfl,
    setErrorConstructor_wholesale_replacement clientPlain
      ((clientPlain.SetErrorConstructor [400] (some consBoom)).SetErrorConstructor [500]
        (some consNope))
      (((clientPlain.SetErrorConstructor [400] (some consBoom)).SetErrorConstructor [500]
        (some consNope)).SetErrorConstructor [] none)
      env400 env500 "GET" "/x" (.reader 3) (.stream 3) none [400] [500] consBoom consNope
      none (reqGetX clientPlain (.stream 3)) (reqGetX clientPlain (.stream 3))
      ⟨400, 7⟩ ⟨500, 9⟩ ⟨"nope"⟩ rfl rfl rfl rfl rfl (by decide) (by decide) rfl rfl
      (by decide) rfl⟩

/-- C10: SetErrorConstructor modifies only the custom-error pair: host, port
and the TLS flag are unchanged, so fullPath returns the same string for every
path before and after the call. -/
theorem setErrorConstructor_frame (client : HttpClient) (S : List Int)
    (g : Option (HttpRequest → HttpResponse → Option Err)) :
    (client.SetErrorConstructor S g).host = client.host ∧
    (client.SetErrorConstructor S g).port = client.port ∧
    (client.SetErrorConstructor S g).useHTTPS = client.useHTTPS ∧
    ∀ p, (client.SetErrorConstructor S g).fullPath p = client.fullPath p :=
  ⟨rfl, rfl, rfl, fun _ => rfl⟩

end Restclient
